import Mathlib

/-!
# Shallow embedding of the WebRTC connection multiplexer

This file models `p2p/transport/webrtc/connection.go`: the `connection`
struct (close lifecycle, stream table, stream-ID allocator, accept queue)
and the `SetupDataChannelQueue` accept-queue bridge, and proves the spec's
claims about them.

Concurrency is modelled sequentially: Go's `sync.Once` serializes the two
close paths, the stream table is mutex-guarded, and the `select`
nondeterminism in `AcceptStream` is an explicit branch-choice parameter.
Side effects on external collaborators (cancelling the lifecycle context,
resetting streams, closing the peer connection, releasing the resource
scope) are recorded as an explicit event trace.
-/

set_option autoImplicit false

namespace Libp2pWebrtc

/-- Two's-complement wraparound of an integer into the `int32` range
`[-2^31, 2^31)`, as Go's `int32` arithmetic does on overflow. -/
def wrap32 (x : Int) : Int :=
  (x + 2147483648) % 4294967296 - 2147483648

/-- Go's `uint16(x)` conversion applied to an `int32` value: the low 16
bits of the two's-complement representation. -/
def uint16OfInt32 (x : Int) : Nat :=
  (x % 65536).toNat

/-- The error values `connection.go` can produce or store.
`connectionClosed` is `errors.New("connection closed")`,
`connectionTimeout` is `errConnectionTimeout{}`,
`exhaustedStreamIDSpace` is `errors.New("exhausted stream ID space")`,
`streamIDExists` is `errors.New("stream ID already exists")`,
`createDataChannelErr` and `ctxErr` stand for errors coming back from the
external collaborators (`pc.CreateDataChannel`, the caller's context), and
`openStreamWrap e` is `fmt.Errorf("open stream: %w", err)`. -/
inductive Err where
  | connectionClosed
  | connectionTimeout
  | exhaustedStreamIDSpace
  | streamIDExists
  | createDataChannelErr
  | ctxErr
  | openStreamWrap (e : Err)
deriving Repr, DecidableEq

/-- `type errConnectionTimeout struct{}` from `connection.go`. -/
structure errConnectionTimeout where

/-- `func (errConnectionTimeout) Error() string { return "connection timeout" }` -/
def errConnectionTimeout.Error (_ : errConnectionTimeout) : String :=
  "connection timeout"

/-- `func (errConnectionTimeout) Timeout() bool { return true }` -/
def errConnectionTimeout.Timeout (_ : errConnectionTimeout) : Bool :=
  true

/-- `func (errConnectionTimeout) Temporary() bool { return false }` -/
def errConnectionTimeout.Temporary (_ : errConnectionTimeout) : Bool :=
  false

/-- The `Error()` message of each modelled error, where `connection.go`
defines it (external collaborators' messages are placeholders). -/
def Err.message : Err → String
  | .connectionClosed => "connection closed"
  | .connectionTimeout => "connection timeout"
  | .exhaustedStreamIDSpace => "exhausted stream ID space"
  | .streamIDExists => "stream ID already exists"
  | .createDataChannelErr => "create data channel failed"
  | .ctxErr => "context error"
  | .openStreamWrap e => "open stream: " ++ e.message

/-- A `*stream` as the connection sees it: what matters here is the
16-bit stream ID it is registered under (`str.id`). -/
structure Stream' where
  id : Nat
deriving Repr, DecidableEq

/-- Externally visible side effects of the connection, recorded as a
trace: writing the close reason, cancelling the lifecycle context,
nilling the stream table, `str.Reset()`, `str.setCloseError(e)`,
`pc.Close()` and `scope.Done()`. -/
inductive Event where
  | setCloseErr (e : Err)
  | cancelCtx
  | nilStreams
  | streamReset (id : Nat)
  | streamSetCloseError (id : Nat) (e : Err)
  | pcClose
  | scopeDone
deriving Repr, DecidableEq

def Event.isSetCloseErr : Event → Bool
  | .setCloseErr _ => true
  | _ => false

def Event.isCancelCtx : Event → Bool
  | .cancelCtx => true
  | _ => false

def Event.isScopeDone : Event → Bool
  | .scopeDone => true
  | _ => false

def Event.isStreamReset : Event → Bool
  | .streamReset _ => true
  | _ => false

def Event.isStreamSetCloseError : Event → Bool
  | .streamSetCloseError _ _ => true
  | _ => false

/-- The mutable state of a `connection`.

* `closeErr` — the recorded close reason (`nil` ↝ `none`);
* `cancelled` — whether `cancel()` has been called on the lifecycle
  context (so `ctx.Done()` is closed);
* `streams` — the stream table; `none` is the `nil` sentinel it is
  swapped to at close, `some tbl` an association list keyed by stream ID;
* `nextStreamID` — the `atomic.Int32` allocator, held as an integer in
  the `int32` range;
* `closeOnceDone` — whether `closeOnce.Do` has already run its body;
* `acceptQueue` — the buffered channel of detached data channels,
  each represented by its channel ID (`*dc.channel.ID()`);
* `channels` — IDs of data channels created so far via
  `pc.CreateDataChannel` (a record of that external call). -/
structure Conn where
  closeErr : Option Err
  cancelled : Bool
  streams : Option (List (Nat × Stream'))
  nextStreamID : Int
  closeOnceDone : Bool
  acceptQueue : List Nat
  channels : List Nat
deriving Repr, DecidableEq

/-- `network.Direction`: Go's type also has an unknown zero value. -/
inductive Direction where
  | inbound
  | outbound
  | unknown
deriving Repr, DecidableEq

/-- The initial value `NewWebRTCConnection` stores into `nextStreamID`:
1 for inbound, 2 for outbound (ID 0 is reserved for the handshake
stream); an `atomic.Int32` left untouched holds 0. -/
def startStreamID : Direction → Int
  | .inbound => 1
  | .outbound => 2
  | .unknown => 0

/-- `NewWebRTCConnection`: a fresh connection wired to a live session,
with an empty stream table, no close reason, the lifecycle context not
yet cancelled, and the allocator seeded by direction. `queue` is the
`datachannelQueue` produced by `SetupDataChannelQueue`. -/
def NewWebRTCConnection (direction : Direction) (queue : List Nat) : Conn :=
  { closeErr := none
    cancelled := false
    streams := some []
    nextStreamID := startStreamID direction
    closeOnceDone := false
    acceptQueue := queue
    channels := [] }

namespace connection

/-- `connection.IsClosed`: a non-blocking poll of `ctx.Done()`. -/
def IsClosed (c : Conn) : Bool :=
  c.cancelled

/-- `connection.addStream`: under the lock, fail with the recorded close
error if the table has been nilled, fail on an ID collision, otherwise
insert the stream under its ID. -/
def addStream (str : Stream') (c : Conn) : Conn × Option Err :=
  match c.streams with
  | none => (c, c.closeErr)
  | some tbl =>
    match tbl.lookup str.id with
    | some _ => (c, some .streamIDExists)
    | none => ({ c with streams := some ((str.id, str) :: tbl) }, none)

/-- `connection.removeStream`: under the lock, `delete(c.streams, id)` —
a no-op on the `nil` table, otherwise drop the binding for `id`. -/
def removeStream (id : Nat) (c : Conn) : Conn :=
  match c.streams with
  | none => c
  | some tbl => { c with streams := some (tbl.filter (fun p => p.1 != id)) }

/-- The event trace of one execution of the teardown body shared by
`Close` and `closeTimedOut`: record the reason, cancel the context, nil
the table, terminate each registered stream (`Reset` on the graceful
path, `setCloseError(errConnectionTimeout{})` on the timeout path),
close the peer connection, release the scope. -/
def closeEvents (reason : Err) (timedOut : Bool) (tbl : List (Nat × Stream')) :
    List Event :=
  [Event.setCloseErr reason, Event.cancelCtx, Event.nilStreams]
    ++ tbl.map (fun p =>
        if timedOut then Event.streamSetCloseError p.1 Err.connectionTimeout
        else Event.streamReset p.1)
    ++ [Event.pcClose, Event.scopeDone]

/-- The teardown body, which `closeOnce.Do` runs at most once. -/
def closeBody (reason : Err) (timedOut : Bool) (c : Conn) : Conn × List Event :=
  let tbl := c.streams.getD []
  ({ c with
      closeErr := some reason
      cancelled := true
      streams := none
      closeOnceDone := true },
   closeEvents reason timedOut tbl)

/-- `connection.Close`: run the teardown once with reason
`errors.New("connection closed")`, resetting every live stream; always
return `nil`. -/
def Close (c : Conn) : Conn × Option Err × List Event :=
  if c.closeOnceDone then (c, none, [])
  else
    let (c1, evs) := closeBody Err.connectionClosed false c
    (c1, none, evs)

/-- `connection.closeTimedOut`: run the teardown once with reason
`errConnectionTimeout{}`, setting every live stream's close error to the
timeout error; always return `nil`. -/
def closeTimedOut (c : Conn) : Conn × Option Err × List Event :=
  if c.closeOnceDone then (c, none, [])
  else
    let (c1, evs) := closeBody Err.connectionTimeout true c
    (c1, none, evs)

end connection

/-- The environment of one `OpenStream` call: whether
`pc.CreateDataChannel` fails, and how the detach wait in `detachChannel`
resolves (`ok`, or an error — the caller's context expiring, or the
detach step itself failing, which `OpenStream` wraps). -/
inductive DetachOutcome where
  | ok
  | errOut (e : Err)
deriving Repr, DecidableEq

structure OpenEnv where
  createErr : Option Err
  detach : DetachOutcome
deriving Repr, DecidableEq

/-- The environment in which every external step succeeds. -/
def envOk : OpenEnv :=
  { createErr := none, detach := DetachOutcome.ok }

/-- The `(network.MuxedStream, error)` pair returned by
`OpenStream`/`AcceptStream`: the stream (identified by its ID) or an
error. -/
structure OpenResult where
  stream : Option Nat
  err : Option Err
deriving Repr, DecidableEq

namespace connection

/-- The ID `OpenStream` computes: `id := c.nextStreamID.Add(2) - 2` in
wrapping `int32` arithmetic — the previous counter value. -/
def allocatedID (c : Conn) : Int :=
  wrap32 (wrap32 (c.nextStreamID + 2) - 2)

/-- `connection.OpenStream`: fail with the recorded close error if
already closed; allocate the next ID (post-increment by 2); fail if the
allocated value exceeds `math.MaxUint16`; create a data channel tagged
`uint16(id)`; wait for detach; register the stream in the table. -/
def OpenStream (env : OpenEnv) (c : Conn) : Conn × OpenResult :=
  if IsClosed c then (c, { stream := none, err := c.closeErr })
  else
    let id := allocatedID c
    let c1 := { c with nextStreamID := wrap32 (c.nextStreamID + 2) }
    if 65535 < id then
      (c1, { stream := none, err := some Err.exhaustedStreamIDSpace })
    else
      let streamID := uint16OfInt32 id
      match env.createErr with
      | some e => (c1, { stream := none, err := some e })
      | none =>
        let c2 := { c1 with channels := c1.channels ++ [streamID] }
        match env.detach with
        | .errOut e =>
          (c2, { stream := none, err := some (Err.openStreamWrap e) })
        | .ok =>
          let str : Stream' := { id := streamID }
          let res := addStream str c2
          match res.2 with
          | some e => (res.1, { stream := none, err := some e })
          | none => (res.1, { stream := some streamID, err := none })

/-- Which branch of `AcceptStream`'s `select` fires. When both
`ctx.Done()` and the queue are ready, Go picks either. -/
inductive AcceptBranch where
  | ctxDone
  | queueRecv
deriving Repr, DecidableEq

/-- `connection.AcceptStream`: block (`none`) until the chosen branch is
ready; on `ctx.Done()` return the recorded close error; on a queued
channel, wrap it as a stream under its own ID and register it. -/
def AcceptStream (br : AcceptBranch) (c : Conn) : Option (Conn × OpenResult) :=
  match br with
  | .ctxDone =>
    if c.cancelled then some (c, { stream := none, err := c.closeErr })
    else none
  | .queueRecv =>
    match c.acceptQueue with
    | [] => none
    | dcID :: rest =>
      let c1 := { c with acceptQueue := rest }
      let str : Stream' := { id := dcID }
      let res := addStream str c1
      match res.2 with
      | some e => some (res.1, { stream := none, err := some e })
      | none => some (res.1, { stream := some dcID, err := none })

end connection

/-- A close entry point: which of the two paths into the one-shot
teardown is invoked. -/
inductive CloseKind where
  | graceful
  | timedOut
deriving Repr, DecidableEq

/-- The close reason each entry point records when it wins the race. -/
def CloseKind.reason : CloseKind → Err
  | .graceful => Err.connectionClosed
  | .timedOut => Err.connectionTimeout

/-- Whether the entry point is the timeout path (which uses
`setCloseError` on live streams instead of `Reset`). -/
def CloseKind.isTimedOut : CloseKind → Bool
  | .graceful => false
  | .timedOut => true

/-- Dispatch one close call. -/
def closeCall : CloseKind → Conn → Conn × Option Err × List Event
  | .graceful => connection.Close
  | .timedOut => connection.closeTimedOut

/-- Run a sequence of close calls (any interleaving of `Close` and
`closeTimedOut`, serialized by `sync.Once`), collecting every call's
return value and the concatenated event trace. -/
def runCloses : List CloseKind → Conn → Conn × List (Option Err) × List Event
  | [], c => (c, [], [])
  | k :: ks, c =>
    let (c1, r, evs) := closeCall k c
    let (c2, rs, evs2) := runCloses ks c1
    (c2, r :: rs, evs ++ evs2)

/-- Iterate `OpenStream` with a fixed environment, keeping only the
state. -/
def openN (env : OpenEnv) : Nat → Conn → Conn
  | 0, c => c
  | n + 1, c => openN env n (connection.OpenStream env c).1

/-- Run a sequence of `OpenStream` calls, one environment per call. -/
def openSeq : List OpenEnv → Conn → Conn
  | [], c => c
  | env :: envs, c => openSeq envs (connection.OpenStream env c).1

/-- A post-close call: `OpenStream` with some environment, or
`AcceptStream` taking some branch. -/
inductive PostCall where
  | openCall (env : OpenEnv)
  | acceptCall (br : connection.AcceptBranch)
deriving Repr, DecidableEq

/-- Run a sequence of `OpenStream`/`AcceptStream` calls, collecting the
result of every call that completes (a blocked `AcceptStream` completes
only once the connection is closed, so on a closed connection only an
empty-queue `queueRecv` choice yields nothing). -/
def runPost : List PostCall → Conn → Conn × List OpenResult
  | [], c => (c, [])
  | PostCall.openCall env :: ps, c =>
    let step := connection.OpenStream env c
    let tail := runPost ps step.1
    (tail.1, step.2 :: tail.2)
  | PostCall.acceptCall br :: ps, c =>
    match connection.AcceptStream br c with
    | none => runPost ps c
    | some s =>
      let tail := runPost ps s.1
      (tail.1, s.2 :: tail.2)

/-- Drain the accept queue: perform `n` `AcceptStream` calls that all
take the queue branch, collecting their results. -/
def acceptAll : Nat → Conn → List OpenResult
  | 0, _ => []
  | n + 1, c =>
    match connection.AcceptStream connection.AcceptBranch.queueRecv c with
    | none => []
    | some (c1, r) => r :: acceptAll n c1

/-- An inbound data channel as the `OnDataChannel` handler sees it: its
channel ID, and whether `dc.Detach()` succeeds inside `OnOpen`. -/
structure IncomingChannel where
  id : Nat
  detachOk : Bool
deriving Repr, DecidableEq

/-- What happened to one inbound channel at the bridge: whether it was
enqueued, how many reset-flagged control messages were written on it,
and whether it was closed by the bridge. -/
structure ChannelFate where
  enqueued : Bool
  resetMsgsWritten : Nat
  closedByBridge : Bool
deriving Repr, DecidableEq

/-- The body of the `OnDataChannel`/`OnOpen` handler installed by
`SetupDataChannelQueue`: on detach failure, log and drop; otherwise try
a non-blocking send into the bounded queue; when the queue is full,
write one `pb.Message{Flag: RESET}` on the channel and close it. -/
def handleIncoming (queueLen : Nat) (queue : List Nat) (ch : IncomingChannel) :
    List Nat × ChannelFate :=
  if ch.detachOk = false then
    (queue, { enqueued := false, resetMsgsWritten := 0, closedByBridge := false })
  else if queue.length < queueLen then
    (queue ++ [ch.id],
     { enqueued := true, resetMsgsWritten := 0, closedByBridge := false })
  else
    (queue, { enqueued := false, resetMsgsWritten := 1, closedByBridge := true })

/-- Feed a list of inbound channels through the bridge in arrival order,
returning the final queue contents and each channel's fate. -/
def processIncoming (queueLen : Nat) (queue : List Nat) :
    List IncomingChannel → List Nat × List ChannelFate
  | [] => (queue, [])
  | ch :: rest =>
    let step := handleIncoming queueLen queue ch
    let tail := processIncoming queueLen step.1 rest
    (tail.1, step.2 :: tail.2)

/-- Any operation of the connection's public or internal surface, for
stating invariants preserved by every step. -/
inductive Op where
  | close
  | closeTimedOut
  | openCall (env : OpenEnv)
  | acceptCall (br : connection.AcceptBranch)
  | addCall (str : Stream')
  | removeCall (id : Nat)
deriving Repr, DecidableEq

/-- Apply one operation to the state (a blocked `AcceptStream` leaves
the state unchanged). -/
def applyOp : Op → Conn → Conn
  | .close, c => (connection.Close c).1
  | .closeTimedOut, c => (connection.closeTimedOut c).1
  | .openCall env, c => (connection.OpenStream env c).1
  | .acceptCall br, c =>
    match connection.AcceptStream br c with
    | none => c
    | some s => s.1
  | .addCall str, c => (connection.addStream str c).1
  | .removeCall id, c => connection.removeStream id c

/-- The lifecycle invariant: once the cancellation signal is asserted,
the close reason is set — an observer woken by `ctx.Done` never reads an
unset `closeErr`. -/
def Conn.reasonBeforeCancel (c : Conn) : Prop :=
  c.cancelled = true → c.closeErr.isSome = true

/-- The state a completed teardown leaves behind: lifecycle context
cancelled, stream table at the `nil` sentinel, close reason `e`
recorded, one-shot guard spent. -/
def Conn.ClosedWith (c : Conn) (e : Err) : Prop :=
  c.cancelled = true ∧ c.streams = none ∧ c.closeErr = some e ∧
    c.closeOnceDone = true

/-! ## Arithmetic helper lemmas -/

theorem wrap32_eq_self {x : Int} (h1 : -2147483648 ≤ x) (h2 : x < 2147483648) :
    wrap32 x = x := by
  unfold wrap32
  omega

theorem wrap32_range (x : Int) :
    -2147483648 ≤ wrap32 x ∧ wrap32 x < 2147483648 := by
  unfold wrap32
  omega

theorem wrap32_wrap32_add (x y : Int) :
    wrap32 (wrap32 x + y) = wrap32 (x + y) := by
  unfold wrap32
  omega

theorem wrap32_add_sub_two (x : Int) :
    wrap32 (wrap32 (x + 2) - 2) = wrap32 x := by
  unfold wrap32
  omega

/-- The allocated ID is exactly the previous counter value whenever the
counter is held in the `int32` range (which every reachable state does). -/
theorem allocatedID_eq_counter {c : Conn} (h1 : -2147483648 ≤ c.nextStreamID)
    (h2 : c.nextStreamID < 2147483648) :
    connection.allocatedID c = c.nextStreamID := by
  unfold connection.allocatedID
  rw [wrap32_add_sub_two, wrap32_eq_self h1 h2]

/-! ## Frame lemmas for the operations -/

namespace connection

theorem addStream_frame (str : Stream') (c : Conn) :
    (addStream str c).1.closeErr = c.closeErr ∧
    (addStream str c).1.cancelled = c.cancelled ∧
    (addStream str c).1.nextStreamID = c.nextStreamID ∧
    (addStream str c).1.closeOnceDone = c.closeOnceDone ∧
    (addStream str c).1.acceptQueue = c.acceptQueue ∧
    (addStream str c).1.channels = c.channels := by
  unfold addStream
  split
  · simp
  · split <;> simp

theorem removeStream_frame (id : Nat) (c : Conn) :
    (removeStream id c).closeErr = c.closeErr ∧
    (removeStream id c).cancelled = c.cancelled ∧
    (removeStream id c).nextStreamID = c.nextStreamID ∧
    (removeStream id c).closeOnceDone = c.closeOnceDone ∧
    (removeStream id c).acceptQueue = c.acceptQueue ∧
    (removeStream id c).channels = c.channels := by
  unfold removeStream
  split <;> simp

theorem OpenStream_closed {c : Conn} (h : c.cancelled = true) (env : OpenEnv) :
    OpenStream env c = (c, { stream := none, err := c.closeErr }) := by
  unfold OpenStream IsClosed
  simp [h]

theorem OpenStream_frame (env : OpenEnv) {c : Conn} (h : c.cancelled = false) :
    (OpenStream env c).1.nextStreamID = wrap32 (c.nextStreamID + 2) ∧
    (OpenStream env c).1.cancelled = c.cancelled ∧
    (OpenStream env c).1.closeErr = c.closeErr ∧
    (OpenStream env c).1.closeOnceDone = c.closeOnceDone ∧
    (OpenStream env c).1.acceptQueue = c.acceptQueue := by
  unfold OpenStream
  rw [if_neg (by simp [IsClosed, h])]
  dsimp only
  split
  · simp
  · split
    · simp
    · split
      · simp
      · split <;> simp [addStream_frame]

theorem Close_done {c : Conn} (h : c.closeOnceDone = true) :
    Close c = (c, none, []) := by
  unfold Close
  simp [h]

theorem closeTimedOut_done {c : Conn} (h : c.closeOnceDone = true) :
    closeTimedOut c = (c, none, []) := by
  unfold closeTimedOut
  simp [h]

theorem Close_fresh {c : Conn} (h : c.closeOnceDone = false) :
    Close c =
      ({ c with
          closeErr := some Err.connectionClosed
          cancelled := true
          streams := none
          closeOnceDone := true },
        none, closeEvents Err.connectionClosed false (c.streams.getD [])) := by
  unfold Close closeBody
  simp [h]

theorem closeTimedOut_fresh {c : Conn} (h : c.closeOnceDone = false) :
    closeTimedOut c =
      ({ c with
          closeErr := some Err.connectionTimeout
          cancelled := true
          streams := none
          closeOnceDone := true },
        none, closeEvents Err.connectionTimeout true (c.streams.getD [])) := by
  unfold closeTimedOut closeBody
  simp [h]

theorem AcceptStream_ctxDone {c : Conn} (h : c.cancelled = true) :
    AcceptStream AcceptBranch.ctxDone c =
      some (c, { stream := none, err := c.closeErr }) := by
  unfold AcceptStream
  simp [h]

theorem AcceptStream_frame {br : AcceptBranch} {c c1 : Conn} {r : OpenResult}
    (h : AcceptStream br c = some (c1, r)) :
    c1.closeErr = c.closeErr ∧ c1.cancelled = c.cancelled ∧
    c1.nextStreamID = c.nextStreamID ∧ c1.closeOnceDone = c.closeOnceDone ∧
    c1.channels = c.channels := by
  cases br
  case ctxDone =>
    unfold AcceptStream at h
    by_cases hc : c.cancelled = true
    · rw [if_pos hc, Option.some.injEq, Prod.mk.injEq] at h
      obtain ⟨h1, h2⟩ := h
      rw [← h1]
      exact ⟨rfl, rfl, rfl, rfl, rfl⟩
    · rw [if_neg hc] at h
      exact absurd h (by simp)
  case queueRecv =>
    unfold AcceptStream at h
    rcases hq : c.acceptQueue with _ | ⟨dcID, rest⟩
    · rw [hq] at h
      exact absurd h (by simp)
    · rw [hq] at h
      dsimp only at h
      split at h <;>
      · rw [Option.some.injEq, Prod.mk.injEq] at h
        obtain ⟨h1, h2⟩ := h
        rw [← h1]
        obtain ⟨f1, f2, f3, f4, f5, f6⟩ :=
          addStream_frame { id := dcID } { c with acceptQueue := rest }
        exact ⟨f1, f2, f3, f4, f6⟩

theorem closeEvents_per_stream_count (reason : Err) (t : Bool)
    (tbl : List (Nat × Stream')) (p : Event → Bool)
    (hp1 : p (Event.setCloseErr reason) = false) (hp2 : p Event.cancelCtx = false)
    (hp3 : p Event.nilStreams = false) (hp4 : p Event.pcClose = false)
    (hp5 : p Event.scopeDone = false) :
    (closeEvents reason t tbl).countP p =
      (tbl.map (fun q =>
        if t then Event.streamSetCloseError q.1 Err.connectionTimeout
        else Event.streamReset q.1)).countP p := by
  unfold closeEvents
  simp [List.countP_append, List.countP_cons, hp1, hp2, hp3, hp4, hp5]

theorem closeEvents_scopeDone_count (reason : Err) (t : Bool)
    (tbl : List (Nat × Stream')) :
    (closeEvents reason t tbl).countP Event.isScopeDone = 1 := by
  unfold closeEvents
  rw [List.countP_append, List.countP_append]
  have hmap : (tbl.map (fun q =>
      if t then Event.streamSetCloseError q.1 Err.connectionTimeout
      else Event.streamReset q.1)).countP Event.isScopeDone = 0 := by
    rw [List.countP_eq_zero]
    intro a ha
    rcases List.mem_map.mp ha with ⟨q, hq, rfl⟩
    cases t <;> simp [Event.isScopeDone]
  rw [hmap]
  simp [List.countP_cons, Event.isScopeDone]

theorem closeEvents_setCloseErr_count (reason : Err) (t : Bool)
    (tbl : List (Nat × Stream')) :
    (closeEvents reason t tbl).countP Event.isSetCloseErr = 1 := by
  unfold closeEvents
  rw [List.countP_append, List.countP_append]
  have hmap : (tbl.map (fun q =>
      if t then Event.streamSetCloseError q.1 Err.connectionTimeout
      else Event.streamReset q.1)).countP Event.isSetCloseErr = 0 := by
    rw [List.countP_eq_zero]
    intro a ha
    rcases List.mem_map.mp ha with ⟨q, hq, rfl⟩
    cases t <;> simp [Event.isSetCloseErr]
  rw [hmap]
  simp [List.countP_cons, Event.isSetCloseErr]

/-- In one teardown trace, the close-reason write is the step
immediately before the cancellation of the lifecycle context. -/
theorem closeEvents_order (reason : Err) (t : Bool)
    (tbl : List (Nat × Stream')) :
    (closeEvents reason t tbl)[0]? = some (Event.setCloseErr reason) ∧
    (closeEvents reason t tbl)[1]? = some Event.cancelCtx := by
  exact ⟨rfl, rfl⟩

end connection

theorem closeCall_fresh {c : Conn} (h : c.closeOnceDone = false) (k : CloseKind) :
    closeCall k c =
      ({ c with
          closeErr := some k.reason
          cancelled := true
          streams := none
          closeOnceDone := true },
        none,
        connection.closeEvents k.reason k.isTimedOut (c.streams.getD [])) := by
  cases k
  · rw [show closeCall CloseKind.graceful = connection.Close from rfl,
      connection.Close_fresh h]
    rfl
  · rw [show closeCall CloseKind.timedOut = connection.closeTimedOut from rfl,
      connection.closeTimedOut_fresh h]
    rfl

theorem closeCall_done {c : Conn} (h : c.closeOnceDone = true) (k : CloseKind) :
    closeCall k c = (c, none, []) := by
  cases k
  · exact connection.Close_done h
  · exact connection.closeTimedOut_done h

theorem runCloses_done {ks : List CloseKind} {c : Conn}
    (h : c.closeOnceDone = true) :
    runCloses ks c = (c, ks.map (fun _ => none), []) := by
  induction ks with
  | nil => rfl
  | cons k ks ih =>
    unfold runCloses
    rw [closeCall_done h k]
    dsimp only
    rw [ih]
    simp

theorem runCloses_fresh {k : CloseKind} {ks : List CloseKind} {c : Conn}
    (h : c.closeOnceDone = false) :
    runCloses (k :: ks) c =
      ({ c with
          closeErr := some k.reason
          cancelled := true
          streams := none
          closeOnceDone := true },
        none :: ks.map (fun _ => none),
        connection.closeEvents k.reason k.isTimedOut (c.streams.getD [])) := by
  unfold runCloses
  rw [closeCall_fresh h k]
  dsimp only
  rw [runCloses_done rfl]
  simp

theorem openSeq_run (envs : List OpenEnv) : ∀ (c : Conn), c.cancelled = false →
    -2147483648 ≤ c.nextStreamID → c.nextStreamID < 2147483648 →
    (openSeq envs c).cancelled = false ∧
    (openSeq envs c).nextStreamID =
      wrap32 (c.nextStreamID + 2 * (envs.length : Int)) := by
  induction envs with
  | nil =>
    intro c h h1 h2
    refine ⟨h, ?_⟩
    show c.nextStreamID = wrap32 (c.nextStreamID + 2 * ((List.length ([] : List OpenEnv) : Int)))
    rw [show c.nextStreamID + 2 * ((List.length ([] : List OpenEnv)) : Int) =
      c.nextStreamID by simp]
    exact (wrap32_eq_self h1 h2).symm
  | cons env envs ih =>
    intro c h h1 h2
    have hstep := connection.OpenStream_frame env h
    have hc : ((connection.OpenStream env c).1).cancelled = false := by
      rw [hstep.2.1]; exact h
    have hr := wrap32_range (c.nextStreamID + 2)
    have hrec := ih (connection.OpenStream env c).1 hc
      (by rw [hstep.1]; exact hr.1) (by rw [hstep.1]; exact hr.2)
    refine ⟨hrec.1, ?_⟩
    show (openSeq envs (connection.OpenStream env c).1).nextStreamID = _
    rw [hrec.2, hstep.1, wrap32_wrap32_add]
    congr 1
    rw [List.length_cons]
    push_cast
    ring

theorem openN_succ (env : OpenEnv) (n : Nat) (c : Conn) :
    openN env (n + 1) c = (connection.OpenStream env (openN env n c)).1 := by
  induction n generalizing c with
  | zero => rfl
  | succ n ih =>
    have h1 : openN env (n + 1 + 1) c =
        openN env (n + 1) ((connection.OpenStream env c).1) := rfl
    rw [h1, ih]
    rfl

theorem openN_eq_openSeq (env : OpenEnv) (n : Nat) (c : Conn) :
    openN env n c = openSeq (List.replicate n env) c := by
  induction n generalizing c with
  | zero => rfl
  | succ n ih =>
    have h1 : openN env (n + 1) c =
        openN env n ((connection.OpenStream env c).1) := rfl
    rw [h1, ih]
    rfl

theorem openN_run (env : OpenEnv) (n : Nat) (c : Conn) (h : c.cancelled = false)
    (h1 : -2147483648 ≤ c.nextStreamID) (h2 : c.nextStreamID < 2147483648) :
    (openN env n c).cancelled = false ∧
    (openN env n c).nextStreamID = wrap32 (c.nextStreamID + 2 * (n : Int)) := by
  rw [openN_eq_openSeq]
  have := openSeq_run (List.replicate n env) c h h1 h2
  rwa [List.length_replicate] at this

/-! ## Association-list lemmas for the stream table -/

theorem lookup_cons_eq (a : Nat) (b : Stream') (tbl : List (Nat × Stream'))
    (k : Nat) :
    ((a, b) :: tbl).lookup k = if k == a then some b else tbl.lookup k := by
  rcases h : k == a with _ | _ <;> simp [List.lookup, h]

theorem lookup_filter_self (tbl : List (Nat × Stream')) (id : Nat) :
    (tbl.filter (fun p => p.1 != id)).lookup id = none := by
  induction tbl with
  | nil => rfl
  | cons q tbl ih =>
    rcases q with ⟨a, b⟩
    rw [List.filter_cons]
    by_cases hq : a = id
    · rw [if_neg (by simp [hq])]
      exact ih
    · rw [if_pos (by simpa [bne_iff_ne] using hq), lookup_cons_eq,
        if_neg (by simpa using fun hc => hq hc.symm)]
      exact ih

theorem lookup_filter_ne (tbl : List (Nat × Stream')) {id j : Nat}
    (h : j ≠ id) :
    (tbl.filter (fun p => p.1 != id)).lookup j = tbl.lookup j := by
  induction tbl with
  | nil => rfl
  | cons q tbl ih =>
    rcases q with ⟨a, b⟩
    rw [List.filter_cons]
    by_cases hq : a = id
    · rw [if_neg (by simp [hq]), lookup_cons_eq,
        if_neg (by simpa using fun hc => h (hc.trans hq))]
      exact ih
    · rw [if_pos (by simpa [bne_iff_ne] using hq), lookup_cons_eq,
        lookup_cons_eq, ih]

theorem lookup_none_of_not_mem_keys {tbl : List (Nat × Stream')} {k : Nat}
    (h : k ∉ tbl.map Prod.fst) : tbl.lookup k = none := by
  induction tbl with
  | nil => rfl
  | cons q tbl ih =>
    rcases q with ⟨a, b⟩
    rw [List.map_cons, List.mem_cons, not_or] at h
    rw [lookup_cons_eq, if_neg (by simpa using h.1)]
    exact ih h.2

theorem not_mem_keys_of_lookup_none {tbl : List (Nat × Stream')} {k : Nat}
    (h : tbl.lookup k = none) : k ∉ tbl.map Prod.fst := by
  induction tbl with
  | nil => simp
  | cons q tbl ih =>
    rcases q with ⟨a, b⟩
    rw [lookup_cons_eq] at h
    rcases hk : (k == a) with _ | _
    · rw [hk, if_neg (by simp)] at h
      rw [List.map_cons, List.mem_cons, not_or]
      exact ⟨by simpa using hk, ih h⟩
    · rw [hk] at h
      exact absurd h (by simp)

theorem lookup_none_of_keys_pos {tbl : List (Nat × Stream')}
    (h : ∀ p ∈ tbl, 0 < p.1) : tbl.lookup 0 = none := by
  apply lookup_none_of_not_mem_keys
  intro hmem
  rcases List.mem_map.mp hmem with ⟨p, hp, hp0⟩
  exact absurd (hp0 ▸ h p hp) (by simp)

theorem filter_eq_self_of_not_mem {tbl : List (Nat × Stream')} {id : Nat}
    (h : id ∉ tbl.map Prod.fst) :
    tbl.filter (fun p => p.1 != id) = tbl := by
  rw [List.filter_eq_self]
  intro p hp
  rw [bne_iff_ne]
  intro hcontra
  exact h (List.mem_map.mpr ⟨p, hp, hcontra⟩)

theorem uint16OfInt32_of_range {x : Int} (h1 : 0 ≤ x) (h2 : x < 65536) :
    uint16OfInt32 x = x.toNat := by
  unfold uint16OfInt32
  rw [Int.emod_eq_of_lt h1 (by omega)]

/-! ## Branch-level behavior of addStream and OpenStream -/

namespace connection

theorem addStream_closedTable {c : Conn} (hstr : c.streams = none)
    (str : Stream') : addStream str c = (c, c.closeErr) := by
  unfold addStream
  rw [hstr]

theorem addStream_collision {c : Conn} {tbl : List (Nat × Stream')}
    {str : Stream'} {s : Stream'} (hstr : c.streams = some tbl)
    (hlook : tbl.lookup str.id = some s) :
    addStream str c = (c, some Err.streamIDExists) := by
  unfold addStream
  rw [hstr]
  dsimp only
  rw [hlook]

theorem addStream_insert {c : Conn} {tbl : List (Nat × Stream')}
    {str : Stream'} (hstr : c.streams = some tbl)
    (hlook : tbl.lookup str.id = none) :
    addStream str c = ({ c with streams := some ((str.id, str) :: tbl) }, none) := by
  unfold addStream
  rw [hstr]
  dsimp only
  rw [hlook]

theorem addStream_streams (str : Stream') (c : Conn) :
    (addStream str c).1.streams = c.streams ∨
    ∃ tbl, c.streams = some tbl ∧ tbl.lookup str.id = none ∧
      (addStream str c).1.streams = some ((str.id, str) :: tbl) := by
  unfold addStream
  split
  · left
    rfl
  next tbl hstbl =>
    split
    · left
      simp [hstbl]
    next hlook =>
      right
      exact ⟨tbl, hstbl, hlook, rfl⟩

theorem OpenStream_exhausted {c : Conn} (env : OpenEnv)
    (h : c.cancelled = false) (hid : 65535 < allocatedID c) :
    OpenStream env c =
      ({ c with nextStreamID := wrap32 (c.nextStreamID + 2) },
        { stream := none, err := some Err.exhaustedStreamIDSpace }) := by
  unfold OpenStream
  rw [if_neg (by simp [IsClosed, h])]
  dsimp only
  rw [if_pos hid]

theorem OpenStream_ok_success {c : Conn} {tbl : List (Nat × Stream')}
    (hcan : c.cancelled = false) (hstr : c.streams = some tbl)
    (hguard : ¬65535 < allocatedID c)
    (hlook : tbl.lookup (uint16OfInt32 (allocatedID c)) = none) :
    OpenStream envOk c =
      ({ c with
          nextStreamID := wrap32 (c.nextStreamID + 2)
          channels := c.channels ++ [uint16OfInt32 (allocatedID c)]
          streams := some ((uint16OfInt32 (allocatedID c),
            { id := uint16OfInt32 (allocatedID c) }) :: tbl) },
        { stream := some (uint16OfInt32 (allocatedID c)), err := none }) := by
  unfold OpenStream
  rw [if_neg (by simp [IsClosed, hcan])]
  dsimp only [envOk]
  rw [if_neg hguard]
  rw [@addStream_insert _ tbl _ (by exact hstr) (by exact hlook)]

/-- Whenever `OpenStream` on an open connection changes the stream
table, the change is the insertion of the freshly allocated ID, and the
exhaustion guard passed for that call. -/
theorem OpenStream_streams_subset (env : OpenEnv) {c : Conn}
    (h : c.cancelled = false) :
    (OpenStream env c).1.streams = c.streams ∨
    (¬65535 < allocatedID c ∧
      ∃ tbl, c.streams = some tbl ∧
        (OpenStream env c).1.streams =
          some ((uint16OfInt32 (allocatedID c),
            { id := uint16OfInt32 (allocatedID c) }) :: tbl)) := by
  unfold OpenStream
  rw [if_neg (by simp [IsClosed, h])]
  dsimp only
  split
  · left
    rfl
  next hguard =>
    split
    · left
      rfl
    · split
      · left
        rfl
      · split <;>
        · rcases addStream_streams { id := uint16OfInt32 (allocatedID c) }
              { c with
                  nextStreamID := wrap32 (c.nextStreamID + 2)
                  channels := c.channels ++ [uint16OfInt32 (allocatedID c)] } with
            hcase | ⟨tbl, htbl, hlook, hins⟩
          · left
            exact hcase
          · right
            exact ⟨hguard, tbl, htbl, hins⟩

end connection

/-- Invariant of an all-successful-environment `OpenStream` run on a
fresh outbound connection, while the 32-bit counter has not wrapped:
the connection stays open, the counter is exactly `2 + 2n`, and every
stream ID in the table is positive. -/
theorem openN_outbound_inv (n : Nat)
    (h : 2 + 2 * (n : Int) ≤ 2147483648) :
    (openN envOk n (NewWebRTCConnection Direction.outbound [])).cancelled = false ∧
    (openN envOk n (NewWebRTCConnection Direction.outbound [])).nextStreamID =
      wrap32 (2 + 2 * (n : Int)) ∧
    ∃ tbl,
      (openN envOk n (NewWebRTCConnection Direction.outbound [])).streams = some tbl ∧
      ∀ p ∈ tbl, 0 < p.1 := by
  induction n with
  | zero =>
    refine ⟨rfl, ?_, [], rfl, by simp⟩
    show (2 : Int) = wrap32 (2 + 2 * ((0 : Nat) : Int))
    rw [show (2 : Int) + 2 * ((0 : Nat) : Int) = 2 by simp]
    rw [wrap32_eq_self (by omega) (by omega)]
  | succ n ih =>
    have hle : 2 + 2 * (n : Int) ≤ 2147483648 := by push_cast at h ⊢; omega
    obtain ⟨hcan, hcnt, tbl, htbl, hkeys⟩ := ih hle
    rw [openN_succ]
    have hrange : 2 + 2 * (n : Int) < 2147483648 := by push_cast at h ⊢; omega
    have hcnt2 :
        (openN envOk n (NewWebRTCConnection Direction.outbound [])).nextStreamID =
          2 + 2 * (n : Int) := by
      rw [hcnt, wrap32_eq_self (by omega) hrange]
    have hid :
        connection.allocatedID (openN envOk n (NewWebRTCConnection Direction.outbound [])) =
          2 + 2 * (n : Int) := by
      rw [allocatedID_eq_counter (by omega) (by rw [hcnt2]; exact hrange)]
      exact hcnt2
    have hframe := connection.OpenStream_frame envOk hcan
    refine ⟨by rw [hframe.2.1]; exact hcan, ?_, ?_⟩
    · rw [hframe.1, hcnt2,
        show (2 : Int) + 2 * (n : Int) + 2 = 2 + 2 * ((n + 1 : Nat) : Int) by
          push_cast; ring]
    · rcases connection.OpenStream_streams_subset envOk hcan with
        hsame | ⟨hguard, tbl2, htbl2, hins⟩
      · exact ⟨tbl, by rw [hsame]; exact htbl, hkeys⟩
      · rw [htbl2] at htbl
        obtain rfl : tbl2 = tbl := by injection htbl
        refine ⟨_, hins, ?_⟩
        intro p hp
        rcases List.mem_cons.mp hp with hp1 | hp2
        · rw [hid] at hguard
          have hpos : 0 < uint16OfInt32 (connection.allocatedID
              (openN envOk n (NewWebRTCConnection Direction.outbound []))) := by
            rw [hid, uint16OfInt32_of_range (by omega) (by omega)]
            omega
          rw [hp1]
          exact hpos
        · exact hkeys p hp2

/-! ## Behavior of the public operations on a closed connection -/

theorem OpenStream_closedWith {c : Conn} {e : Err} (h : c.ClosedWith e)
    (env : OpenEnv) :
    connection.OpenStream env c = (c, { stream := none, err := some e }) := by
  rw [connection.OpenStream_closed h.1 env, h.2.2.1]

theorem AcceptStream_closedWith {c : Conn} {e : Err} (h : c.ClosedWith e)
    (br : connection.AcceptBranch) :
    connection.AcceptStream br c = none ∨
    ∃ c1, connection.AcceptStream br c =
        some (c1, { stream := none, err := some e }) ∧
      c1.ClosedWith e := by
  cases br
  case ctxDone =>
    right
    exact ⟨c, by rw [connection.AcceptStream_ctxDone h.1, h.2.2.1], h⟩
  case queueRecv =>
    rcases hq : c.acceptQueue with _ | ⟨dcID, rest⟩
    · left
      unfold connection.AcceptStream
      rw [hq]
    · right
      refine ⟨{ c with acceptQueue := rest }, ?_, h.1, h.2.1, h.2.2.1, h.2.2.2⟩
      unfold connection.AcceptStream
      rw [hq]
      dsimp only
      rw [connection.addStream_closedTable
        (show ({ c with acceptQueue := rest } : Conn).streams = none from h.2.1)
        { id := dcID }]
      dsimp only
      rw [show ({ c with acceptQueue := rest } : Conn).closeErr = some e from
        h.2.2.1]

theorem runPost_closed {e : Err} : ∀ (ps : List PostCall) (c : Conn),
    c.ClosedWith e →
    (∀ r ∈ (runPost ps c).2, r = { stream := none, err := some e }) ∧
    ((runPost ps c).1).ClosedWith e := by
  intro ps
  induction ps with
  | nil =>
    intro c h
    exact ⟨by intro r hr; exact absurd hr (by simp [runPost]), h⟩
  | cons p ps ih =>
    intro c h
    cases p
    case openCall env =>
      unfold runPost
      rw [OpenStream_closedWith h env]
      dsimp only
      obtain ⟨ih1, ih2⟩ := ih c h
      refine ⟨?_, ih2⟩
      intro r hr
      rcases List.mem_cons.mp hr with hr1 | hr2
      · exact hr1
      · exact ih1 r hr2
    case acceptCall br =>
      rcases AcceptStream_closedWith h br with hnone | ⟨c1, hsome, hc1⟩
      · unfold runPost
        rw [hnone]
        exact ih c h
      · unfold runPost
        rw [hsome]
        dsimp only
        obtain ⟨ih1, ih2⟩ := ih c1 hc1
        refine ⟨?_, ih2⟩
        intro r hr
        rcases List.mem_cons.mp hr with hr1 | hr2
        · exact hr1
        · exact ih1 r hr2

/-! ## Preservation of the reason-before-cancel invariant -/

theorem applyOp_preserves_reason (op : Op) (c : Conn)
    (h : c.reasonBeforeCancel) : (applyOp op c).reasonBeforeCancel := by
  cases op
  case close =>
    by_cases hd : c.closeOnceDone = true
    · rw [show applyOp Op.close c = (connection.Close c).1 from rfl,
        connection.Close_done hd]
      exact h
    · rw [show applyOp Op.close c = (connection.Close c).1 from rfl,
        connection.Close_fresh (by simpa using hd)]
      intro hcan
      rfl
  case closeTimedOut =>
    by_cases hd : c.closeOnceDone = true
    · rw [show applyOp Op.closeTimedOut c = (connection.closeTimedOut c).1 from rfl,
        connection.closeTimedOut_done hd]
      exact h
    · rw [show applyOp Op.closeTimedOut c = (connection.closeTimedOut c).1 from rfl,
        connection.closeTimedOut_fresh (by simpa using hd)]
      intro hcan
      rfl
  case openCall env =>
    rcases hc : c.cancelled with _ | _
    · have hframe := connection.OpenStream_frame env hc
      intro hcan
      rw [show applyOp (Op.openCall env) c = (connection.OpenStream env c).1
        from rfl, hframe.2.1, hc] at hcan
      exact absurd hcan (by simp)
    · rw [show applyOp (Op.openCall env) c = (connection.OpenStream env c).1
        from rfl, connection.OpenStream_closed hc env]
      exact h
  case acceptCall br =>
    rcases hacc : connection.AcceptStream br c with _ | ⟨c1, r⟩
    · rw [show applyOp (Op.acceptCall br) c =
        (match connection.AcceptStream br c with
          | none => c
          | some s => s.1) from rfl, hacc]
      exact h
    · have hframe := connection.AcceptStream_frame hacc
      rw [show applyOp (Op.acceptCall br) c =
        (match connection.AcceptStream br c with
          | none => c
          | some s => s.1) from rfl, hacc]
      dsimp only
      intro hcan
      rw [hframe.2.1] at hcan
      rw [hframe.1]
      exact h hcan
  case addCall str =>
    have hframe := connection.addStream_frame str c
    intro hcan
    rw [show applyOp (Op.addCall str) c = (connection.addStream str c).1
      from rfl, hframe.1]
    rw [show applyOp (Op.addCall str) c = (connection.addStream str c).1
      from rfl, hframe.2.1] at hcan
    exact h hcan
  case removeCall id =>
    have hframe := connection.removeStream_frame id c
    intro hcan
    rw [show applyOp (Op.removeCall id) c = connection.removeStream id c
      from rfl, hframe.1]
    rw [show applyOp (Op.removeCall id) c = connection.removeStream id c
      from rfl, hframe.2.1] at hcan
    exact h hcan

/-! ## Accept-queue bridge lemmas -/

/-- One handler invocation on a detach-succeeding channel: enqueue when
there is room, otherwise one reset message and a close. -/
theorem handleIncoming_ok {ch : IncomingChannel} (cap : Nat) (q : List Nat)
    (hok : ch.detachOk = true) :
    handleIncoming cap q ch =
      if q.length < cap then
        (q ++ [ch.id],
          { enqueued := true, resetMsgsWritten := 0, closedByBridge := false })
      else
        (q, { enqueued := false, resetMsgsWritten := 1,
              closedByBridge := true }) := by
  unfold handleIncoming
  rw [hok]
  simp

theorem processIncoming_ok (cap : Nat) :
    ∀ (chs : List IncomingChannel) (q0 : List Nat),
    (∀ ch ∈ chs, ch.detachOk = true) → q0.length ≤ cap →
    (processIncoming cap q0 chs).1 =
      q0 ++ ((chs.take (cap - q0.length)).map IncomingChannel.id) ∧
    (processIncoming cap q0 chs).2.length = chs.length ∧
    ∀ i, i < chs.length →
      (processIncoming cap q0 chs).2[i]? =
        some (if q0.length + i < cap then
          { enqueued := true, resetMsgsWritten := 0, closedByBridge := false }
        else
          { enqueued := false, resetMsgsWritten := 1,
            closedByBridge := true }) := by
  intro chs
  induction chs with
  | nil =>
    intro q0 hok hlen
    refine ⟨by simp [processIncoming], by simp [processIncoming], ?_⟩
    intro i hi
    exact absurd hi (by simp)
  | cons ch rest ih =>
    intro q0 hok hlen
    have hch : ch.detachOk = true := hok ch (by simp)
    have hq01 : (q0 ++ [ch.id]).length = q0.length + 1 := by simp
    unfold processIncoming
    dsimp only
    rw [handleIncoming_ok cap q0 hch]
    by_cases hroom : q0.length < cap
    · rw [if_pos hroom]
      dsimp only
      obtain ⟨ihq, ihl, ihf⟩ := ih (q0 ++ [ch.id])
        (fun x hx => hok x (by simp [hx])) (by omega)
      refine ⟨?_, ?_, ?_⟩
      · rw [ihq]
        rw [show cap - q0.length = (cap - (q0 ++ [ch.id]).length) + 1 by
          rw [hq01]; omega]
        rw [List.take_succ_cons, List.map_cons, List.append_assoc,
          List.singleton_append]
      · rw [List.length_cons, ihl, List.length_cons]
      · intro i hi
        rcases i with _ | j
        · rw [List.getElem?_cons_zero, if_pos (by omega)]
        · rw [List.getElem?_cons_succ]
          rw [List.length_cons] at hi
          have hj := ihf j (by omega)
          rw [hj]
          rw [show (q0 ++ [ch.id]).length + j = q0.length + (j + 1) by
            rw [hq01]; omega]
    · rw [if_neg hroom]
      dsimp only
      obtain ⟨ihq, ihl, ihf⟩ := ih q0 (fun x hx => hok x (by simp [hx])) hlen
      refine ⟨?_, ?_, ?_⟩
      · rw [ihq]
        rw [show cap - q0.length = 0 by omega]
        rfl
      · rw [List.length_cons, ihl, List.length_cons]
      · intro i hi
        rcases i with _ | j
        · rw [List.getElem?_cons_zero, if_neg (by omega)]
        · rw [List.getElem?_cons_succ]
          rw [List.length_cons] at hi
          have hj := ihf j (by omega)
          rw [hj, if_neg (by omega), if_neg (by omega)]

/-- Draining a queue of pairwise-distinct channel IDs, none of which is
registered yet, returns each channel in order with its ID intact. -/
theorem acceptAll_ids :
    ∀ (q : List Nat) (c : Conn) (tbl : List (Nat × Stream')),
    c.acceptQueue = q → c.streams = some tbl → q.Nodup →
    (∀ x ∈ q, tbl.lookup x = none) →
    acceptAll q.length c = q.map (fun i => { stream := some i, err := none }) := by
  intro q
  induction q with
  | nil =>
    intro c tbl h1 h2 h3 h4
    rfl
  | cons dcID rest ih =>
    intro c tbl h1 h2 h3 h4
    have hacc : connection.AcceptStream connection.AcceptBranch.queueRecv c =
        some ({ c with
            acceptQueue := rest
            streams := some ((dcID, { id := dcID }) :: tbl) },
          { stream := some dcID, err := none }) := by
      unfold connection.AcceptStream
      rw [h1]
      dsimp only
      rw [connection.addStream_insert
        (show ({ c with acceptQueue := rest } : Conn).streams = some tbl from h2)
        (h4 dcID (by simp))]
    show (match connection.AcceptStream connection.AcceptBranch.queueRecv c with
        | none => []
        | some (c1, r) => r :: acceptAll rest.length c1) =
      List.map (fun i => ({ stream := some i, err := none } : OpenResult))
        (dcID :: rest)
    rw [hacc]
    dsimp only
    rw [List.map_cons]
    rw [List.nodup_cons] at h3
    have htail := ih
      { c with
          acceptQueue := rest
          streams := some ((dcID, { id := dcID }) :: tbl) }
      ((dcID, { id := dcID }) :: tbl) rfl rfl h3.2 ?_
    · rw [htail]
    · intro x hx
      have hxne : x ≠ dcID := by
        intro hcontra
        exact h3.1 (hcontra ▸ hx)
      rw [lookup_cons_eq, if_neg (by simpa using hxne)]
      exact h4 x (by simp [hx])

/-! ## Claim theorems -/

/-- Claim C1: for any number of `Close` and `closeTimedOut` calls in any
order, every call returns `nil`, exactly one teardown trace is produced
(recording the reason, cancelling the context, nilling the table,
terminating each previously-registered stream, closing the peer
connection) and `scope.Done` occurs in it exactly once; the first call
determines the recorded reason and later calls contribute no events. -/
theorem close_idempotent_single_teardown (ks : List CloseKind) (c : Conn)
    (hfresh : c.closeOnceDone = false) :
    (∀ r ∈ (runCloses ks c).2.1, r = none) ∧
    (∀ k ks2, ks = k :: ks2 →
      (runCloses ks c).2.2 =
        connection.closeEvents k.reason k.isTimedOut (c.streams.getD []) ∧
      (runCloses ks c).1.closeErr = some k.reason ∧
      ((runCloses ks c).2.2.countP Event.isScopeDone) = 1 ∧
      ((runCloses ks c).2.2.countP Event.isSetCloseErr) = 1) ∧
    (ks = [] → (runCloses ks c).2.2 = []) := by
  rcases ks with _ | ⟨k, ks2⟩
  · refine ⟨by simp [runCloses], ?_, fun _ => rfl⟩
    intro k ks2 h
    exact absurd h (by simp)
  · rw [runCloses_fresh hfresh]
    refine ⟨?_, ?_, ?_⟩
    · intro r hr
      dsimp only at hr
      rcases List.mem_cons.mp hr with h1 | h2
      · exact h1
      · rcases List.mem_map.mp h2 with ⟨_, _, h3⟩
        exact h3.symm
    · intro k' ks2' hk
      injection hk with hk1 hk2
      subst hk1
      exact ⟨rfl, rfl,
        connection.closeEvents_scopeDone_count k.reason k.isTimedOut
          (c.streams.getD []),
        connection.closeEvents_setCloseErr_count k.reason k.isTimedOut
          (c.streams.getD [])⟩
    · intro h
      exact absurd h (by simp)

/-- Witness for C1 at a concrete connection, a timeout close racing a
graceful close (timeout first): one teardown trace, the timeout reason
recorded, one `scope.Done`. -/
theorem close_idempotent_single_teardown_witness :
    (runCloses [CloseKind.timedOut, CloseKind.graceful]
      (NewWebRTCConnection Direction.outbound [])).2.2 =
      connection.closeEvents CloseKind.timedOut.reason
        CloseKind.timedOut.isTimedOut
        ((NewWebRTCConnection Direction.outbound []).streams.getD []) ∧
    (runCloses [CloseKind.timedOut, CloseKind.graceful]
      (NewWebRTCConnection Direction.outbound [])).1.closeErr =
      some CloseKind.timedOut.reason ∧
    ((runCloses [CloseKind.timedOut, CloseKind.graceful]
      (NewWebRTCConnection Direction.outbound [])).2.2.countP
        Event.isScopeDone) = 1 ∧
    ((runCloses [CloseKind.timedOut, CloseKind.graceful]
      (NewWebRTCConnection Direction.outbound [])).2.2.countP
        Event.isSetCloseErr) = 1 :=
  (close_idempotent_single_teardown [CloseKind.timedOut, CloseKind.graceful]
    (NewWebRTCConnection Direction.outbound []) rfl).2.1
    CloseKind.timedOut [CloseKind.graceful] rfl

/-- Claim C2: once either close path has completed, every later
`OpenStream` or `AcceptStream` call — any number of them, including an
`AcceptStream` that takes the queue branch while a detached channel is
still sitting in the accept queue — returns the recorded close error. -/
theorem post_close_same_error :
    (∀ c : Conn, c.closeOnceDone = false →
      ((connection.Close c).1).ClosedWith Err.connectionClosed ∧
      ((connection.closeTimedOut c).1).ClosedWith Err.connectionTimeout) ∧
    (∀ (c : Conn) (e : Err), c.ClosedWith e → ∀ ps : List PostCall,
      ∀ r ∈ (runPost ps c).2, r = { stream := none, err := some e }) := by
  constructor
  · intro c h
    constructor
    · rw [connection.Close_fresh h]
      exact ⟨rfl, rfl, rfl, rfl⟩
    · rw [connection.closeTimedOut_fresh h]
      exact ⟨rfl, rfl, rfl, rfl⟩
  · intro c e hc ps
    exact (runPost_closed ps c hc).1

/-- Witness for C2: a closed connection with a channel still queued;
the accepting call (queue branch) followed by an opening call both
return the recorded close error (membership is checked by evaluating
the run). -/
theorem post_close_same_error_witness :
    ((connection.Close (NewWebRTCConnection Direction.inbound
      [5])).1).ClosedWith Err.connectionClosed ∧
    ({ stream := none, err := some Err.connectionClosed } : OpenResult) =
      { stream := none, err := some Err.connectionClosed } :=
  ⟨(post_close_same_error.1 (NewWebRTCConnection Direction.inbound [5]) rfl).1,
    post_close_same_error.2
      ((connection.Close (NewWebRTCConnection Direction.inbound [5])).1)
      Err.connectionClosed ⟨rfl, rfl, rfl, rfl⟩
      [PostCall.acceptCall connection.AcceptBranch.queueRecv,
        PostCall.openCall envOk]
      { stream := none, err := some Err.connectionClosed } (by decide)⟩

/-- Claim C5: the timeout close path applies `setCloseError` with the
timeout error — which self-reports `Timeout() = true`,
`Temporary() = false` and message `"connection timeout"` — to every
stream registered at teardown, and issues no resets; the graceful path
applies `Reset` to every registered stream and records no close error
on any stream; both paths terminate every previously-registered
stream. -/
theorem close_paths_stream_treatment (c : Conn) (tbl : List (Nat × Stream'))
    (hfresh : c.closeOnceDone = false) (htbl : c.streams = some tbl) :
    (∀ p ∈ tbl, Event.streamReset p.1 ∈ (connection.Close c).2.2) ∧
    ((connection.Close c).2.2.countP Event.isStreamSetCloseError = 0) ∧
    (∀ p ∈ tbl, Event.streamSetCloseError p.1 Err.connectionTimeout ∈
      (connection.closeTimedOut c).2.2) ∧
    ((connection.closeTimedOut c).2.2.countP Event.isStreamReset = 0) ∧
    (∀ e : errConnectionTimeout,
      e.Timeout = true ∧ e.Temporary = false ∧
        e.Error = "connection timeout") ∧
    Err.message Err.connectionTimeout = "connection timeout" := by
  rw [connection.Close_fresh hfresh, connection.closeTimedOut_fresh hfresh]
  dsimp only
  rw [htbl]
  dsimp only [Option.getD]
  refine ⟨?_, ?_, ?_, ?_, fun e => ⟨rfl, rfl, rfl⟩, rfl⟩
  · intro p hp
    unfold connection.closeEvents
    rw [List.mem_append, List.mem_append]
    exact Or.inl (Or.inr (List.mem_map.mpr ⟨p, hp, rfl⟩))
  · rw [connection.closeEvents_per_stream_count _ _ _ _ rfl rfl rfl rfl rfl,
      List.countP_eq_zero]
    intro a ha
    rcases List.mem_map.mp ha with ⟨q, hq, rfl⟩
    simp [Event.isStreamSetCloseError]
  · intro p hp
    unfold connection.closeEvents
    rw [List.mem_append, List.mem_append]
    exact Or.inl (Or.inr (List.mem_map.mpr ⟨p, hp, rfl⟩))
  · rw [connection.closeEvents_per_stream_count _ _ _ _ rfl rfl rfl rfl rfl,
      List.countP_eq_zero]
    intro a ha
    rcases List.mem_map.mp ha with ⟨q, hq, rfl⟩
    simp [Event.isStreamReset]

/-- Witness for C5 at a concrete connection holding two streams:
stream 4 is reset by the graceful path and stream 7 receives the
timeout close error on the timeout path. -/
theorem close_paths_stream_treatment_witness :
    Event.streamReset 4 ∈
      (connection.Close { NewWebRTCConnection Direction.inbound [] with
        streams := some [(4, { id := 4 }), (7, { id := 7 })] }).2.2 ∧
    ((connection.Close { NewWebRTCConnection Direction.inbound [] with
        streams := some [(4, { id := 4 }), (7, { id := 7 })] }).2.2.countP
          Event.isStreamSetCloseError = 0) ∧
    Event.streamSetCloseError 7 Err.connectionTimeout ∈
      (connection.closeTimedOut { NewWebRTCConnection Direction.inbound [] with
        streams := some [(4, { id := 4 }), (7, { id := 7 })] }).2.2 ∧
    ((connection.closeTimedOut { NewWebRTCConnection Direction.inbound [] with
        streams := some [(4, { id := 4 }), (7, { id := 7 })] }).2.2.countP
          Event.isStreamReset = 0) ∧
    errConnectionTimeout.Timeout ⟨⟩ = true ∧
    errConnectionTimeout.Temporary ⟨⟩ = false ∧
    errConnectionTimeout.Error ⟨⟩ = "connection timeout" ∧
    Err.message Err.connectionTimeout = "connection timeout" :=
  ⟨(close_paths_stream_treatment
      { NewWebRTCConnection Direction.inbound [] with
          streams := some [(4, { id := 4 }), (7, { id := 7 })] }
      [(4, { id := 4 }), (7, { id := 7 })] rfl rfl).1
      (4, { id := 4 }) (by decide),
    (close_paths_stream_treatment
      { NewWebRTCConnection Direction.inbound [] with
          streams := some [(4, { id := 4 }), (7, { id := 7 })] }
      [(4, { id := 4 }), (7, { id := 7 })] rfl rfl).2.1,
    (close_paths_stream_treatment
      { NewWebRTCConnection Direction.inbound [] with
          streams := some [(4, { id := 4 }), (7, { id := 7 })] }
      [(4, { id := 4 }), (7, { id := 7 })] rfl rfl).2.2.1
      (7, { id := 7 }) (by decide),
    (close_paths_stream_treatment
      { NewWebRTCConnection Direction.inbound [] with
          streams := some [(4, { id := 4 }), (7, { id := 7 })] }
      [(4, { id := 4 }), (7, { id := 7 })] rfl rfl).2.2.2.1,
    ((close_paths_stream_treatment
      { NewWebRTCConnection Direction.inbound [] with
          streams := some [(4, { id := 4 }), (7, { id := 7 })] }
      [(4, { id := 4 }), (7, { id := 7 })] rfl rfl).2.2.2.2.1 ⟨⟩).1,
    ((close_paths_stream_treatment
      { NewWebRTCConnection Direction.inbound [] with
          streams := some [(4, { id := 4 }), (7, { id := 7 })] }
      [(4, { id := 4 }), (7, { id := 7 })] rfl rfl).2.2.2.2.1 ⟨⟩).2.1,
    ((close_paths_stream_treatment
      { NewWebRTCConnection Direction.inbound [] with
          streams := some [(4, { id := 4 }), (7, { id := 7 })] }
      [(4, { id := 4 }), (7, { id := 7 })] rfl rfl).2.2.2.2.1 ⟨⟩).2.2,
    (close_paths_stream_treatment
      { NewWebRTCConnection Direction.inbound [] with
          streams := some [(4, { id := 4 }), (7, { id := 7 })] }
      [(4, { id := 4 }), (7, { id := 7 })] rfl rfl).2.2.2.2.2⟩

/-- Claim C6: `closeErr` is written at most once over the connection's
lifetime (any interleaving of close calls produces at most one
reason-write event, and no other operation changes `closeErr`), the
write precedes the cancellation of the lifecycle context in the
teardown step sequence, and consequently every operation preserves the
invariant — established at construction — that a fired lifecycle
signal implies a recorded close reason. -/
theorem closeErr_write_once_before_cancel :
    (∀ (ks : List CloseKind) (c : Conn), c.closeOnceDone = false →
      ((runCloses ks c).2.2.countP Event.isSetCloseErr) ≤ 1) ∧
    (∀ (env : OpenEnv) (c : Conn), c.cancelled = false →
      (connection.OpenStream env c).1.closeErr = c.closeErr) ∧
    (∀ (br : connection.AcceptBranch) (c c1 : Conn) (r : OpenResult),
      connection.AcceptStream br c = some (c1, r) →
        c1.closeErr = c.closeErr) ∧
    (∀ (str : Stream') (c : Conn),
      (connection.addStream str c).1.closeErr = c.closeErr) ∧
    (∀ (id : Nat) (c : Conn),
      (connection.removeStream id c).closeErr = c.closeErr) ∧
    (∀ (reason : Err) (t : Bool) (tbl : List (Nat × Stream')),
      (connection.closeEvents reason t tbl)[0]? =
        some (Event.setCloseErr reason) ∧
      (connection.closeEvents reason t tbl)[1]? = some Event.cancelCtx) ∧
    (∀ (op : Op) (c : Conn), c.reasonBeforeCancel →
      (applyOp op c).reasonBeforeCancel) ∧
    (∀ (d : Direction) (q : List Nat),
      (NewWebRTCConnection d q).reasonBeforeCancel) := by
  refine ⟨?_, ?_, ?_, ?_, ?_, ?_, applyOp_preserves_reason, ?_⟩
  · intro ks c h
    rcases ks with _ | ⟨k, ks2⟩
    · simp [runCloses]
    · rw [runCloses_fresh h]
      exact le_of_eq (connection.closeEvents_setCloseErr_count k.reason
        k.isTimedOut (c.streams.getD []))
  · intro env c h
    exact (connection.OpenStream_frame env h).2.2.1
  · intro br c c1 r h
    exact (connection.AcceptStream_frame h).1
  · intro str c
    exact (connection.addStream_frame str c).1
  · intro id c
    exact (connection.removeStream_frame id c).1
  · intro reason t tbl
    exact connection.closeEvents_order reason t tbl
  · intro d q hcan
    simp [NewWebRTCConnection] at hcan

/-- Witness for C6 at a concrete double-close run and a concrete step:
after a close is applied to a fresh connection, the fired signal comes
with a recorded reason. -/
theorem closeErr_write_once_before_cancel_witness :
    ((runCloses [CloseKind.graceful, CloseKind.graceful]
      (NewWebRTCConnection Direction.inbound [])).2.2.countP
        Event.isSetCloseErr) ≤ 1 ∧
    (applyOp Op.close
      (NewWebRTCConnection Direction.inbound [])).closeErr.isSome = true :=
  ⟨closeErr_write_once_before_cancel.1
      [CloseKind.graceful, CloseKind.graceful]
      (NewWebRTCConnection Direction.inbound []) rfl,
    closeErr_write_once_before_cancel.2.2.2.2.2.2.1 Op.close
      (NewWebRTCConnection Direction.inbound [])
      (closeErr_write_once_before_cancel.2.2.2.2.2.2.2 Direction.inbound [])
      rfl⟩

/-- Claim C7: `addStream` on a closed (nilled) table returns the
recorded close error and the table stays closed; on an ID collision it
returns a collision error and changes nothing; otherwise it inserts the
stream under its ID and succeeds — so nothing is added after close and
key uniqueness is preserved. -/
theorem addStream_spec (c : Conn) (str : Stream') :
    (c.streams = none → connection.addStream str c = (c, c.closeErr)) ∧
    (∀ tbl s, c.streams = some tbl → tbl.lookup str.id = some s →
      connection.addStream str c = (c, some Err.streamIDExists)) ∧
    (∀ tbl, c.streams = some tbl → tbl.lookup str.id = none →
      connection.addStream str c =
        ({ c with streams := some ((str.id, str) :: tbl) }, none)) ∧
    (∀ tbl tbl2, c.streams = some tbl →
      (connection.addStream str c).1.streams = some tbl2 →
      (tbl.map Prod.fst).Nodup → (tbl2.map Prod.fst).Nodup) := by
  refine ⟨?_, ?_, ?_, ?_⟩
  · intro h
    exact connection.addStream_closedTable h str
  · intro tbl s h1 h2
    exact connection.addStream_collision h1 h2
  · intro tbl h1 h2
    exact connection.addStream_insert h1 h2
  · intro tbl tbl2 h1 h2 hnodup
    rcases hl : tbl.lookup str.id with _ | s
    · rw [connection.addStream_insert h1 hl] at h2
      dsimp only at h2
      injection h2 with h3
      rw [← h3, List.map_cons, List.nodup_cons]
      exact ⟨not_mem_keys_of_lookup_none hl, hnodup⟩
    · rw [connection.addStream_collision h1 hl] at h2
      dsimp only at h2
      rw [h1] at h2
      injection h2 with h3
      rw [← h3]
      exact hnodup

/-- Witness for C7: inserting stream 3 into a fresh table. -/
theorem addStream_spec_witness :
    connection.addStream { id := 3 } (NewWebRTCConnection Direction.inbound []) =
      ({ NewWebRTCConnection Direction.inbound [] with
          streams := some [((3 : Nat), ({ id := 3 } : Stream'))] }, none) :=
  (addStream_spec (NewWebRTCConnection Direction.inbound [])
    { id := 3 }).2.2.1 [] rfl rfl

/-- Claim C9: `removeStream id` deletes the entry for `id` when
present, leaves every other entry's binding unchanged, is a no-op on
the closed (nilled) table or when the ID was never registered, and
never touches the close error or the lifecycle signal. -/
theorem removeStream_spec (c : Conn) (id : Nat) :
    (connection.removeStream id c).closeErr = c.closeErr ∧
    (connection.removeStream id c).cancelled = c.cancelled ∧
    (c.streams = none → connection.removeStream id c = c) ∧
    (∀ tbl, c.streams = some tbl →
      (connection.removeStream id c).streams =
        some (tbl.filter (fun p => p.1 != id)) ∧
      (tbl.filter (fun p => p.1 != id)).lookup id = none ∧
      (∀ j, j ≠ id →
        (tbl.filter (fun p => p.1 != id)).lookup j = tbl.lookup j) ∧
      (id ∉ tbl.map Prod.fst → tbl.filter (fun p => p.1 != id) = tbl)) := by
  refine ⟨(connection.removeStream_frame id c).1,
    (connection.removeStream_frame id c).2.1, ?_, ?_⟩
  · intro h
    unfold connection.removeStream
    rw [h]
  · intro tbl h
    refine ⟨?_, lookup_filter_self tbl id,
      fun j hj => lookup_filter_ne tbl hj,
      fun hnm => filter_eq_self_of_not_mem hnm⟩
    unfold connection.removeStream
    rw [h]

/-- Witness for C9 on a concrete two-entry table. -/
theorem removeStream_spec_witness :
    ((connection.removeStream 4 { NewWebRTCConnection Direction.inbound [] with
        streams := some [(4, { id := 4 }), (9, { id := 9 })] }).streams =
      some ([((4 : Nat), ({ id := 4 } : Stream')),
        (9, { id := 9 })].filter (fun p => p.1 != 4))) ∧
    (([((4 : Nat), ({ id := 4 } : Stream')),
        (9, { id := 9 })].filter (fun p => p.1 != 4)).lookup 4 = none) ∧
    (([((4 : Nat), ({ id := 4 } : Stream')),
        (9, { id := 9 })].filter (fun p => p.1 != 4)).lookup 9 =
      ([((4 : Nat), ({ id := 4 } : Stream')),
        (9, { id := 9 })]).lookup 9) :=
  ⟨((removeStream_spec { NewWebRTCConnection Direction.inbound [] with
      streams := some [(4, { id := 4 }), (9, { id := 9 })] } 4).2.2.2
      [(4, { id := 4 }), (9, { id := 9 })] rfl).1,
    ((removeStream_spec { NewWebRTCConnection Direction.inbound [] with
      streams := some [(4, { id := 4 }), (9, { id := 9 })] } 4).2.2.2
      [(4, { id := 4 }), (9, { id := 9 })] rfl).2.1,
    ((removeStream_spec { NewWebRTCConnection Direction.inbound [] with
      streams := some [(4, { id := 4 }), (9, { id := 9 })] } 4).2.2.2
      [(4, { id := 4 }), (9, { id := 9 })] rfl).2.2.1 9 (by decide)⟩

/-- Claim C4: on an open connection, every `OpenStream` call whose
allocated counter value exceeds `math.MaxUint16` (65535) returns the
ID-space-exhausted error and creates no data channel — nothing changes
except the counter, which keeps advancing by 2 in wrapping 32-bit
arithmetic. The guard fires for every such call, including at the
32-bit wrap boundary, because the allocated value is always exactly the
previous counter value in `int32` arithmetic (second conjunct). -/
theorem openStream_exhaustion_guard :
    (∀ (env : OpenEnv) (c : Conn), c.cancelled = false →
      65535 < connection.allocatedID c →
      connection.OpenStream env c =
        ({ c with nextStreamID := wrap32 (c.nextStreamID + 2) },
          { stream := none, err := some Err.exhaustedStreamIDSpace })) ∧
    (∀ c : Conn, -2147483648 ≤ c.nextStreamID →
      c.nextStreamID < 2147483648 →
      connection.allocatedID c = c.nextStreamID) :=
  ⟨fun env _c h1 h2 => connection.OpenStream_exhausted env h1 h2,
    fun _c h1 h2 => allocatedID_eq_counter h1 h2⟩

/-- Witness for C4: a counter past 65535 and one at the wrap boundary
both make `OpenStream` fail with the exhaustion error. -/
theorem openStream_exhaustion_guard_witness :
    connection.OpenStream envOk
      { NewWebRTCConnection Direction.outbound [] with
          nextStreamID := 70000 } =
      ({ NewWebRTCConnection Direction.outbound [] with
          nextStreamID := wrap32 (70000 + 2) },
        { stream := none, err := some Err.exhaustedStreamIDSpace }) ∧
    connection.OpenStream envOk
      { NewWebRTCConnection Direction.outbound [] with
          nextStreamID := 2147483646 } =
      ({ NewWebRTCConnection Direction.outbound [] with
          nextStreamID := wrap32 (2147483646 + 2) },
        { stream := none, err := some Err.exhaustedStreamIDSpace }) :=
  ⟨openStream_exhaustion_guard.1 envOk
      { NewWebRTCConnection Direction.outbound [] with nextStreamID := 70000 }
      rfl (by decide),
    openStream_exhaustion_guard.1 envOk
      { NewWebRTCConnection Direction.outbound [] with
          nextStreamID := 2147483646 }
      rfl (by decide)⟩

/-- Claim C8: feeding detach-succeeding inbound channels through the
bridge, the first `cap` are enqueued in order with their IDs unchanged
(and each is retrievable by `AcceptStream` with its ID intact), while
every channel arriving with the queue full gets exactly one
reset-flagged message written on it and is closed. -/
theorem accept_bridge_overflow (cap : Nat) (chs : List IncomingChannel)
    (hok : ∀ ch ∈ chs, ch.detachOk = true)
    (hnodup : (chs.map IncomingChannel.id).Nodup) :
    (processIncoming cap [] chs).1 =
      (chs.take cap).map IncomingChannel.id ∧
    (processIncoming cap [] chs).2.length = chs.length ∧
    (∀ i, i < chs.length →
      (processIncoming cap [] chs).2[i]? =
        some (if i < cap then
          { enqueued := true, resetMsgsWritten := 0, closedByBridge := false }
        else
          { enqueued := false, resetMsgsWritten := 1,
            closedByBridge := true })) ∧
    (∀ c : Conn, c.acceptQueue = (processIncoming cap [] chs).1 →
      c.streams = some [] →
      acceptAll (processIncoming cap [] chs).1.length c =
        (processIncoming cap [] chs).1.map
          (fun i => { stream := some i, err := none })) := by
  obtain ⟨hq, hl, hf⟩ := processIncoming_ok cap chs [] hok (by simp)
  have hq2 : (processIncoming cap [] chs).1 =
      (chs.take cap).map IncomingChannel.id := by
    rw [hq]
    simp
  refine ⟨hq2, hl, ?_, ?_⟩
  · intro i hi
    have hfi := hf i hi
    simpa using hfi
  · intro c hque hstr
    refine acceptAll_ids _ c [] hque hstr ?_ ?_
    · rw [hq2, List.map_take]
      exact hnodup.sublist (List.take_sublist cap _)
    · intro x hx
      rfl

/-- Witness for C8: three channels into a queue of capacity two — the
first two are enqueued and retrievable, the third is reset and
closed. -/
theorem accept_bridge_overflow_witness :
    (processIncoming 2 []
      [({ id := 11, detachOk := true } : IncomingChannel),
        { id := 12, detachOk := true }, { id := 13, detachOk := true }]).1 =
      ([({ id := 11, detachOk := true } : IncomingChannel),
        { id := 12, detachOk := true },
        { id := 13, detachOk := true }].take 2).map IncomingChannel.id ∧
    (processIncoming 2 []
      [({ id := 11, detachOk := true } : IncomingChannel),
        { id := 12, detachOk := true },
        { id := 13, detachOk := true }]).2[2]? =
      some (if 2 < 2 then
        { enqueued := true, resetMsgsWritten := 0, closedByBridge := false }
      else
        { enqueued := false, resetMsgsWritten := 1,
          closedByBridge := true }) ∧
    acceptAll (processIncoming 2 []
      [({ id := 11, detachOk := true } : IncomingChannel),
        { id := 12, detachOk := true }, { id := 13, detachOk := true }]).1.length
      (NewWebRTCConnection Direction.inbound (processIncoming 2 []
        [({ id := 11, detachOk := true } : IncomingChannel),
          { id := 12, detachOk := true }, { id := 13, detachOk := true }]).1) =
      (processIncoming 2 []
        [({ id := 11, detachOk := true } : IncomingChannel),
          { id := 12, detachOk := true }, { id := 13, detachOk := true }]).1.map
        (fun i => { stream := some i, err := none }) :=
  ⟨(accept_bridge_overflow 2
      [{ id := 11, detachOk := true }, { id := 12, detachOk := true },
        { id := 13, detachOk := true }]
      (by intro ch hch; fin_cases hch <;> rfl) (by decide)).1,
    (accept_bridge_overflow 2
      [{ id := 11, detachOk := true }, { id := 12, detachOk := true },
        { id := 13, detachOk := true }]
      (by intro ch hch; fin_cases hch <;> rfl) (by decide)).2.2.1 2
      (by decide),
    (accept_bridge_overflow 2
      [{ id := 11, detachOk := true }, { id := 12, detachOk := true },
        { id := 13, detachOk := true }]
      (by intro ch hch; fin_cases hch <;> rfl) (by decide)).2.2.2
      (NewWebRTCConnection Direction.inbound (processIncoming 2 []
        [({ id := 11, detachOk := true } : IncomingChannel),
          { id := 12, detachOk := true }, { id := 13, detachOk := true }]).1)
      rfl rfl⟩

/-- Claim C10: every `OpenStream` call that passes the is-closed check
advances the counter by 2 (in wrapping 32-bit arithmetic) regardless of
the call's outcome; no other operation changes the counter; once the
allocated value exceeds 65535 the call fails with the exhaustion error,
and — as long as the counter does not wrap — the next call fails too;
and, pre-wrap, any later call allocates a strictly larger value, so the
ID consumed by a failed call is permanently skipped. -/
theorem openStream_counter_monotone :
    (∀ (env : OpenEnv) (c : Conn), c.cancelled = false →
      (connection.OpenStream env c).1.nextStreamID =
        wrap32 (c.nextStreamID + 2)) ∧
    (∀ c : Conn, (connection.Close c).1.nextStreamID = c.nextStreamID) ∧
    (∀ c : Conn,
      (connection.closeTimedOut c).1.nextStreamID = c.nextStreamID) ∧
    (∀ (br : connection.AcceptBranch) (c c1 : Conn) (r : OpenResult),
      connection.AcceptStream br c = some (c1, r) →
        c1.nextStreamID = c.nextStreamID) ∧
    (∀ (str : Stream') (c : Conn),
      (connection.addStream str c).1.nextStreamID = c.nextStreamID) ∧
    (∀ (id : Nat) (c : Conn),
      (connection.removeStream id c).nextStreamID = c.nextStreamID) ∧
    (∀ (env : OpenEnv) (c : Conn), c.cancelled = false →
      65535 < connection.allocatedID c →
      (connection.OpenStream env c).2 =
        { stream := none, err := some Err.exhaustedStreamIDSpace }) ∧
    (∀ (env : OpenEnv) (c : Conn), c.cancelled = false →
      65535 < c.nextStreamID → c.nextStreamID + 2 < 2147483648 →
      65535 < (connection.OpenStream env c).1.nextStreamID) ∧
    (∀ (envs : List OpenEnv) (env : OpenEnv) (c : Conn),
      c.cancelled = false → -2147483648 ≤ c.nextStreamID →
      c.nextStreamID + 2 * ((envs.length : Int) + 1) < 2147483648 →
      connection.allocatedID
          (openSeq envs (connection.OpenStream env c).1) =
        c.nextStreamID + 2 * ((envs.length : Int) + 1) ∧
      c.nextStreamID <
        connection.allocatedID
          (openSeq envs (connection.OpenStream env c).1)) := by
  refine ⟨fun env c h => (connection.OpenStream_frame env h).1,
    ?_, ?_,
    fun br c c1 r h => (connection.AcceptStream_frame h).2.2.1,
    fun str c => (connection.addStream_frame str c).2.2.1,
    fun id c => (connection.removeStream_frame id c).2.2.1,
    ?_, ?_, ?_⟩
  · intro c
    by_cases hd : c.closeOnceDone = true
    · rw [connection.Close_done hd]
    · rw [connection.Close_fresh (by simpa using hd)]
  · intro c
    by_cases hd : c.closeOnceDone = true
    · rw [connection.closeTimedOut_done hd]
    · rw [connection.closeTimedOut_fresh (by simpa using hd)]
  · intro env c h hx
    rw [connection.OpenStream_exhausted env h hx]
  · intro env c h hx hnw
    rw [(connection.OpenStream_frame env h).1,
      wrap32_eq_self (by omega) (by omega)]
    omega
  · intro envs env c hcan hlo hhi
    have hstep := connection.OpenStream_frame env hcan
    have hc1 : ((connection.OpenStream env c).1).cancelled = false := by
      rw [hstep.2.1]
      exact hcan
    have hr := wrap32_range (c.nextStreamID + 2)
    have hseq := openSeq_run envs (connection.OpenStream env c).1 hc1
      (by rw [hstep.1]; exact hr.1) (by rw [hstep.1]; exact hr.2)
    have hcnt :
        (openSeq envs (connection.OpenStream env c).1).nextStreamID =
          c.nextStreamID + 2 * ((envs.length : Int) + 1) := by
      rw [hseq.2, hstep.1, wrap32_wrap32_add,
        show c.nextStreamID + 2 + 2 * (envs.length : Int) =
          c.nextStreamID + 2 * ((envs.length : Int) + 1) by ring]
      exact wrap32_eq_self (by omega) (by omega)
    have hall :
        connection.allocatedID (openSeq envs (connection.OpenStream env c).1) =
          c.nextStreamID + 2 * ((envs.length : Int) + 1) := by
      rw [allocatedID_eq_counter (by rw [hcnt]; omega) (by rw [hcnt]; omega)]
      exact hcnt
    constructor
    · exact hall
    · rw [hall]
      have : 0 ≤ (envs.length : Int) := Int.natCast_nonneg _
      omega

/-- Witness for C10 at concrete states: a fresh outbound connection's
first call advances 2 to 4; a connection at 70000 is exhausted and the
call after the next one allocates 70004. -/
theorem openStream_counter_monotone_witness :
    (connection.OpenStream envOk
      (NewWebRTCConnection Direction.outbound [])).1.nextStreamID =
      wrap32 ((NewWebRTCConnection Direction.outbound []).nextStreamID + 2) ∧
    (connection.OpenStream envOk
      { NewWebRTCConnection Direction.outbound [] with
          nextStreamID := 70000 }).2 =
      { stream := none, err := some Err.exhaustedStreamIDSpace } ∧
    connection.allocatedID (openSeq [envOk] (connection.OpenStream envOk
      { NewWebRTCConnection Direction.outbound [] with
          nextStreamID := 70000 }).1) =
      70000 + 2 * ((([envOk] : List OpenEnv).length : Int) + 1) :=
  ⟨openStream_counter_monotone.1 envOk
      (NewWebRTCConnection Direction.outbound []) rfl,
    openStream_counter_monotone.2.2.2.2.2.2.1 envOk
      { NewWebRTCConnection Direction.outbound [] with nextStreamID := 70000 }
      rfl (by decide),
    (openStream_counter_monotone.2.2.2.2.2.2.2.2 [envOk] envOk
      { NewWebRTCConnection Direction.outbound [] with nextStreamID := 70000 }
      rfl (by decide) (by decide)).1⟩

/-- Counterexample to C3 as stated: after 2^30 - 1 = 1073741823
`OpenStream` calls on an open outbound connection, the 32-bit counter
has wrapped to -2^31; the next call passes the exhaustion guard
(negative is not greater than 65535) and successfully allocates stream
ID 0 — the `uint16` truncation of the counter — contradicting both
"allocated IDs strictly increase by 2" and "ID 0 is never allocated by
OpenStream". -/
theorem openStream_id_zero_after_wrap :
    (openN envOk 1073741823
      (NewWebRTCConnection Direction.outbound [])).cancelled = false ∧
    (connection.OpenStream envOk (openN envOk 1073741823
      (NewWebRTCConnection Direction.outbound []))).2 =
      { stream := some 0, err := none } := by
  obtain ⟨hcan, hcnt, tbl, htbl, hkeys⟩ :=
    openN_outbound_inv 1073741823 (by norm_num)
  refine ⟨hcan, ?_⟩
  have hcnt0 : (openN envOk 1073741823
      (NewWebRTCConnection Direction.outbound [])).nextStreamID =
      -2147483648 := by
    rw [hcnt]
    decide
  have hid : connection.allocatedID (openN envOk 1073741823
      (NewWebRTCConnection Direction.outbound [])) = -2147483648 := by
    unfold connection.allocatedID
    rw [wrap32_add_sub_two, hcnt0]
    exact wrap32_eq_self (by norm_num) (by norm_num)
  have hguard : ¬65535 < connection.allocatedID (openN envOk 1073741823
      (NewWebRTCConnection Direction.outbound [])) := by
    rw [hid]
    norm_num
  have hu : uint16OfInt32 (connection.allocatedID (openN envOk 1073741823
      (NewWebRTCConnection Direction.outbound []))) = 0 := by
    rw [hid]
    decide
  have hlook : tbl.lookup (uint16OfInt32 (connection.allocatedID
      (openN envOk 1073741823
        (NewWebRTCConnection Direction.outbound [])))) = none := by
    rw [hu]
    exact lookup_none_of_keys_pos hkeys
  rw [connection.OpenStream_ok_success hcan htbl hguard hlook]
  dsimp only
  rw [hu]

/-- Claim C3 amended: while the 32-bit counter has not wrapped (the
first 2^30 - 1 or so calls), every `OpenStream` call on an open
connection allocates the previous counter value and advances the
counter by 2 (post-increment), so allocated IDs are exactly
`start + 2n`: strictly increasing by 2, of the parity fixed at
construction (1, 3, 5, … inbound; 2, 4, 6, … outbound), and never 0. -/
theorem openStream_id_allocation_pre_wrap (d : Direction) (q : List Nat)
    (n : Nat) (hd : d ≠ Direction.unknown)
    (hn : startStreamID d + 2 * (n : Int) + 2 ≤ 2147483647) :
    (openN envOk n (NewWebRTCConnection d q)).nextStreamID =
      startStreamID d + 2 * (n : Int) ∧
    connection.allocatedID (openN envOk n (NewWebRTCConnection d q)) =
      startStreamID d + 2 * (n : Int) ∧
    (connection.OpenStream envOk
      (openN envOk n (NewWebRTCConnection d q))).1.nextStreamID =
      startStreamID d + 2 * (n : Int) + 2 ∧
    0 < startStreamID d + 2 * (n : Int) ∧
    (startStreamID d + 2 * (n : Int)) % 2 = startStreamID d % 2 := by
  have hstart : 0 < startStreamID d ∧ startStreamID d ≤ 2 := by
    cases d
    · exact ⟨by norm_num [startStreamID], by norm_num [startStreamID]⟩
    · exact ⟨by norm_num [startStreamID], by norm_num [startStreamID]⟩
    · exact absurd rfl hd
  have hnn : 0 ≤ (n : Int) := Int.natCast_nonneg n
  have hrun := openN_run envOk n (NewWebRTCConnection d q) rfl
    (by show -2147483648 ≤ startStreamID d; omega)
    (by show startStreamID d < 2147483648; omega)
  have hcnt : (openN envOk n (NewWebRTCConnection d q)).nextStreamID =
      startStreamID d + 2 * (n : Int) := by
    rw [hrun.2,
      show (NewWebRTCConnection d q).nextStreamID = startStreamID d from rfl]
    exact wrap32_eq_self (by omega) (by omega)
  refine ⟨hcnt, ?_, ?_, by omega, by omega⟩
  · rw [allocatedID_eq_counter (by rw [hcnt]; omega) (by rw [hcnt]; omega)]
    exact hcnt
  · rw [(connection.OpenStream_frame envOk hrun.1).1, hcnt]
    exact wrap32_eq_self (by omega) (by omega)

/-- Witness for the amended C3: the second call on a fresh outbound
connection allocates ID 4 = 2 + 2·1 and advances the counter to 6. -/
theorem openStream_id_allocation_pre_wrap_witness :
    (openN envOk 1 (NewWebRTCConnection Direction.outbound [])).nextStreamID =
      startStreamID Direction.outbound + 2 * ((1 : Nat) : Int) ∧
    connection.allocatedID
      (openN envOk 1 (NewWebRTCConnection Direction.outbound [])) =
      startStreamID Direction.outbound + 2 * ((1 : Nat) : Int) ∧
    (connection.OpenStream envOk
      (openN envOk 1 (NewWebRTCConnection Direction.outbound []))).1.nextStreamID =
      startStreamID Direction.outbound + 2 * ((1 : Nat) : Int) + 2 ∧
    0 < startStreamID Direction.outbound + 2 * ((1 : Nat) : Int) ∧
    (startStreamID Direction.outbound + 2 * ((1 : Nat) : Int)) % 2 =
      startStreamID Direction.outbound % 2 :=
  openStream_id_allocation_pre_wrap Direction.outbound [] 1 (by decide)
    (by decide)

end Libp2pWebrtc
